import Mathlib

/-!
Verification of the AutoDocu repository (auto_docu.py, auto_comment_functions.py,
auto_docstring_functions.py, auto_summary.py) against its natural-language
specification.

The Python sources are shallowly embedded:

* file-system paths are lists of components (`List String`), modelling
  relative `pathlib.Path` values made of plain names;
* text files are either raw `String`s or their `splitlines` image
  (`List String`); only `\n` line terminators are modelled;
* each `ollama.chat` model call is an oracle `Nat → Except Unit String`
  indexed by call order (the spec's glossary treats a model call as an
  opaque black-box function, and prompts influence nothing observable);
* Python exceptions become `Except PyErr` results; `print` calls are not
  observable and are dropped;
* the `ast` module's parse trees become the inductive `PyStmt`, and
  `ast.walk`'s breadth-first traversal becomes `bfs`.
-/

/-! ## Python string primitives (over `List Char` so everything reduces) -/

/-- The characters `str.strip()` removes: space, tab, LF, CR, VT, FF. -/
def isPySpace (c : Char) : Bool :=
  c == ' ' || c == '\t' || c == '\n' || c == '\r' || c == '\u000B' || c == '\u000C'

/-- `str.strip()` on a character list: drop whitespace from both ends. -/
def stripChars (l : List Char) : List Char :=
  ((l.dropWhile isPySpace).reverse.dropWhile isPySpace).reverse

/-- Python `str.strip()`. -/
def pyStrip (s : String) : String := String.mk (stripChars s.toList)

/-- Python `str.lower()` (ASCII letters; the fence markers compared here are ASCII). -/
def pyLower (s : String) : String := String.mk (s.toList.map Char.toLower)

/-- Does `l` start with `p`? (helper for substring search). -/
def startsWithChars : List Char → List Char → Bool
  | _, [] => true
  | [], _ :: _ => false
  | a :: as, b :: bs => a == b && startsWithChars as bs

/-- Does `needle` occur inside `hay`? (helper for Python's `in` on strings). -/
def containsChars : List Char → List Char → Bool
  | [], needle => needle.isEmpty
  | a :: as, needle => startsWithChars (a :: as) needle || containsChars as needle

/-- Python's `needle in hay` test on strings. -/
def pyInStr (needle hay : String) : Bool := containsChars hay.toList needle.toList

/-- Replace every occurrence of `pat` in `s` (helper for `str.replace`); the
fuel starts at the length of `s`, which bounds the recursion depth. -/
def pyReplaceAux : Nat → List Char → List Char → List Char → List Char
  | 0, s, _, _ => s
  | _ + 1, [], _, _ => []
  | fuel + 1, c :: rest, pat, repl =>
    if !pat.isEmpty && startsWithChars (c :: rest) pat then
      repl ++ pyReplaceAux fuel (List.drop pat.length (c :: rest)) pat repl
    else
      c :: pyReplaceAux fuel rest pat repl

/-- Python `str.replace(pat, repl)` (replace all occurrences, left to right). -/
def pyReplace (s pat repl : String) : String :=
  String.mk (pyReplaceAux s.toList.length s.toList pat.toList repl.toList)

/-- Split a character list at `\n` (helper for `str.splitlines`). -/
def splitNl : List Char → List (List Char)
  | [] => [[]]
  | c :: rest =>
    let r := splitNl rest
    if c == '\n' then [] :: r
    else match r with
      | [] => [[c]]
      | x :: xs => (c :: x) :: xs

/-- Python `str.splitlines()` restricted to `\n` terminators: the empty string
gives `[]`, and a trailing newline does not produce a final empty line. -/
def pySplitlines (s : String) : List String :=
  if s.isEmpty then []
  else
    let parts := splitNl s.toList
    let parts := if parts.getLast? == some [] then parts.dropLast else parts
    parts.map String.mk

/-- Python `sep.join(lines)`. -/
def pyJoin (sep : String) : List String → String
  | [] => ""
  | [x] => x
  | x :: y :: rest => x ++ sep ++ pyJoin sep (y :: rest)

/-- Python `l.insert(i, x)` for a non-negative index: inserts before position
`i`, appending at the end when `i` exceeds the length. -/
def pyInsert (l : List α) (i : Nat) (x : α) : List α :=
  l.take i ++ x :: l.drop i

/-! ## Python runtime errors raised by this code base -/

/-- The exceptions the embedded fragments can raise. -/
inductive PyErr where
  | typeError
  | fileNotFoundError
  | unboundLocalError
  deriving DecidableEq, Repr

/-- Decidable equality of `Except` results (needed so concrete outcomes can
be settled by `decide`). -/
instance instDecEqExcept {ε α : Type _} [DecidableEq ε] [DecidableEq α] :
    DecidableEq (Except ε α) := fun x y =>
  match x, y with
  | .ok a, .ok b =>
    if h : a = b then isTrue (congrArg Except.ok h)
    else isFalse (fun hh => h (Except.ok.inj hh))
  | .error a, .error b =>
    if h : a = b then isTrue (congrArg Except.error h)
    else isFalse (fun hh => h (Except.error.inj hh))
  | .ok _, .error _ => isFalse (fun hh => Except.noConfusion hh)
  | .error _, .ok _ => isFalse (fun hh => Except.noConfusion hh)

/-! ## `pathlib` model and `get_auto_docu_path` (auto_comment_functions.py 4–23)

A relative `Path` of plain components is its tuple of `parts`.  `Path(".")`
is the empty list.  `mkdir` calls are recorded as events so the claims about
directory creation are observable. -/

/-- `Path.parent`: drop the last component (`Path("A").parent == Path(".")`,
and `Path(".")` is its own parent). -/
def pathParent (p : List String) : List String := p.dropLast

/-- `Path.relative_to(base)`: strip `base` as a component prefix, or fail
with a `ValueError`-like `none`. -/
def pathRelativeTo (p base : List String) : Option (List String) :=
  if p.take base.length == base then some (p.drop base.length) else none

/-- `get_auto_docu_path(src, new_branch_root)` from auto_comment_functions.py
lines 4–23, over an abstract file-system predicate `isf` telling which paths
are existing regular files.  Returns the list of `mkdir`-created directories
together with the destination file path, or the raised exception.

  * `if not src.is_file(): raise FileNotFoundError` (line 9–10);
  * `project_root = Path(src.parts[0]).parent` (line 13) — for a relative
    `src` this is `Path(".")`, i.e. `[]`;
  * `sub_dirs = src.parent.relative_to(project_root)` (line 14);
  * `dst_dir = new_branch_root / sub_dirs; dst_dir.mkdir(...)` (lines 17–18);
  * `dst_file = dst_dir / src.name` (line 21). -/
def get_auto_docu_path (isf : List String → Bool) (src new_branch_root : List String) :
    Except PyErr (List (List String) × List String) :=
  if !isf src then
    .error .fileNotFoundError
  else
    let project_root := pathParent [src.headI]
    match pathRelativeTo (pathParent src) project_root with
    | none => .error .typeError
    | some sub_dirs =>
      let dst_dir := new_branch_root ++ sub_dirs
      let dst_file := dst_dir ++ [src.getLastD ""]
      .ok ([dst_dir], dst_file)

/-! ## `clean_markdown_code_fence` (auto_comment_functions.py 26–56) -/

/-- The line-list transformation of `clean_markdown_code_fence` (lines 37–53):
drop the first line when it strips and lowercases to a Python code fence
opener, then drop the (resulting) last line when it strips to a bare fence. -/
def clean_markdown_code_fence (lines : List String) : List String :=
  let lines :=
    match lines with
    | [] => []
    | x :: xs => if pyLower (pyStrip x) == "```python" then xs else x :: xs
  match lines.getLast? with
  | some z => if pyStrip z == "```" then lines.dropLast else lines
  | none => lines

/-- The text written back by `clean_markdown_code_fence` (line 56):
`"\n".join(lines) + "\n"` applied to the cleaned line list. -/
def clean_output (lines : List String) : String :=
  pyJoin "\n" (clean_markdown_code_fence lines) ++ "\n"

/-- Modelled from the claim's wording, for comparison with the code: remove
the first line exactly when it strips/lowercases to the fence opener, then
remove the resulting last line exactly when it strips to the bare fence,
keeping all other lines unchanged and in order (a `drop` then a `take`). -/
def cleanSpecLines (lines : List String) : List String :=
  let a := if h : lines ≠ [] then
      (if pyLower (pyStrip (lines.head h)) == "```python" then 1 else 0)
    else 0
  let kept := lines.drop a
  let b :=
    match kept.getLast? with
    | some z => if pyStrip z == "```" then kept.length - 1 else kept.length
    | none => kept.length
  kept.take b

/-! ## `auto_comment` (auto_comment_functions.py 59–209)

The two-to-four `ollama.chat` calls are an oracle indexed by call order
(`.error` models the call raising).  The result records the sequence of
file writes `(path, content)`, the number of model calls made, and whether
the function returned normally or propagated an exception.  Prompt strings
are not modelled: the oracle is opaque in them. -/

/-- Observable outcome of one `auto_comment` call. -/
structure ACResult where
  writes : List (List String × String)
  modelCalls : Nat
  outcome : Except PyErr Unit
  deriving DecidableEq, Repr

/-- `auto_comment(file_path, auto_docu_root, model, commenting_style)`.
`original_code` is the content read from `file_path` (lines 73–75). -/
def auto_comment (oracle : Nat → Except Unit String) (isf : List String → Bool)
    (file_path auto_docu_root : List String)
    (_original_code _commenting_style : String) : ACResult :=
  -- lines 84–101: first model call, classify the existing commenting style;
  -- `original_code` and `commenting_style` only feed prompt strings, which
  -- the opaque oracle ignores
  let _existing_commenting :=
    match oracle 0 with
    | .ok r => pyReplace r "commenting" ""
    | .error _ => "unknown"
  -- lines 108–127: second model call, compare to the target style
  let needs_commenting :=
    match oracle 1 with
    | .ok r => pyInStr "different" (pyLower r)
    | .error _ => false
  if needs_commenting then
    -- first try block, lines 137–163: strip the comments
    match oracle 2 with
    | .error _ =>
      -- the exception is caught and printed (line 157), so `new_path` is never
      -- bound; line 165 `with open(new_path, ...)` then raises UnboundLocalError
      { writes := [], modelCalls := 3, outcome := .error .unboundLocalError }
    | .ok un_commented_code =>
      match get_auto_docu_path isf file_path auto_docu_root with
      | .error _ =>
        -- FileNotFoundError from line 149 is caught at line 157; `new_path`
        -- is unbound at line 165, raising UnboundLocalError
        { writes := [], modelCalls := 3, outcome := .error .unboundLocalError }
      | .ok (_, new_path) =>
        -- lines 151–155: write the stripped code, then the fence cleaner
        -- rewrites the same file in place
        let w1 := (new_path, un_commented_code)
        let cleaned := clean_output (pySplitlines un_commented_code)
        let w2 := (new_path, cleaned)
        -- line 165: read the cleaned file back (its content is `cleaned`)
        let _un_commented_code := cleaned
        -- second try block, lines 175–202: re-add comments in the target style
        match oracle 3 with
        | .error _ =>
          -- caught and printed at line 196; the function returns normally
          { writes := [w1, w2], modelCalls := 4, outcome := .ok () }
        | .ok commented_code =>
          match get_auto_docu_path isf file_path auto_docu_root with
          | .error _ =>
            { writes := [w1, w2], modelCalls := 4, outcome := .ok () }
          | .ok (_, new_path2) =>
            -- lines 189–193: write the recommented code, fence cleaner rewrites
            let w3 := (new_path2, commented_code)
            let w4 := (new_path2, clean_output (pySplitlines commented_code))
            { writes := [w1, w2, w3, w4], modelCalls := 4, outcome := .ok () }
  else
    -- line 205: `print(f"... {new_path.name}")` reads the local `new_path`
    -- before the assignment on line 206, raising UnboundLocalError; the
    -- write of the original content on lines 207–209 is never reached
    { writes := [], modelCalls := 2, outcome := .error .unboundLocalError }

/-! ## `ast` model and the docstring inserter (auto_docstring_functions.py)

A parse tree is a list of statements; a statement is either a function
definition carrying the fields the code reads off the `ast.FunctionDef`
node (`name`, `lineno`, `end_lineno`, `col_offset`, `body[0].lineno`,
whether `ast.get_docstring` finds a docstring) or any other statement with
its nested statements.  `ast.walk` visits nodes breadth-first. -/

/-- The fields of an `ast.FunctionDef` node that the code reads. -/
structure FuncRec where
  name : String
  lineno : Nat
  end_lineno : Nat
  col_offset : Nat
  body0_lineno : Nat
  deriving DecidableEq, Repr

/-- A statement of the parsed module. -/
inductive PyStmt where
  | funcDef (info : FuncRec) (hasDocstring : Bool) (body : List PyStmt)
  | other (body : List PyStmt)

/-- The child statements `ast.iter_child_nodes` descends into. -/
def stmtChildren : PyStmt → List PyStmt
  | .funcDef _ _ b => b
  | .other b => b

mutual
/-- Node count of a statement (termination fuel for the traversal). -/
def stmtSize : PyStmt → Nat
  | .funcDef _ _ b => 1 + stmtsSize b
  | .other b => 1 + stmtsSize b

/-- Node count of a statement list. -/
def stmtsSize : List PyStmt → Nat
  | [] => 0
  | s :: rest => stmtSize s + stmtsSize rest
end

/-- One breadth-first round per unit of fuel: emit the queue, recurse on all
children.  `ast.walk` uses a FIFO deque, so its order is exactly level order. -/
def bfsAux : Nat → List PyStmt → List PyStmt
  | 0, _ => []
  | _ + 1, [] => []
  | fuel + 1, l => l ++ bfsAux fuel (l.flatMap stmtChildren)

/-- `ast.walk` order of the module's statements (the `Module` node itself is
not a `FunctionDef`, so dropping it is harmless to the extraction).  The
fuel `stmtsSize stmts + 1` exceeds the number of levels, which is at most
the total node count. -/
def bfs (stmts : List PyStmt) : List PyStmt := bfsAux (stmtsSize stmts + 1) stmts

/-- `lines[node.lineno - 1 : node.end_lineno]` joined back (line 27–28). -/
def funcSrc (lines : List String) (info : FuncRec) : String :=
  pyJoin "\n" ((lines.drop (info.lineno - 1)).take (info.end_lineno - (info.lineno - 1)))

/-- The loop of lines 25–29: walk the tree, keep `FunctionDef` nodes with no
docstring, pair each with its source slice. -/
def walkMissingDocstrings (tree : List PyStmt) (lines : List String) : List (FuncRec × String) :=
  (bfs tree).filterMap fun s =>
    match s with
    | .funcDef info hasDoc _ => if hasDoc then none else some (info, funcSrc lines info)
    | .other _ => none

/-- `extract_functions_missing_docstrings` (lines 7–31): returns the source
and the walk-ordered list of (node, function source) pairs.  `tree` is the
parse tree of `source`, supplied abstractly since parsing is not modelled. -/
def extract_functions_missing_docstrings (source : String) (tree : List PyStmt) :
    String × List (FuncRec × String) :=
  let lines := pySplitlines source
  (source, walkMissingDocstrings tree lines)

/-- `doc.strip().splitlines()` indented by `node.col_offset + 4` spaces and
rejoined (lines 72–73): the single list element the code inserts. -/
def docBlock (node : FuncRec) (doc : String) : String :=
  let indent := String.mk (List.replicate (node.col_offset + 4) ' ')
  pyJoin "\n" ((pySplitlines (pyStrip doc)).map (fun line => indent ++ line))

/-- The loop of lines 70–74: fold over `reversed(list(zip(func_nodes,
docstrings)))`, inserting each doc block at `node.body[0].lineno - 1`. -/
def insertLoop (lines : List String) (l : List ((FuncRec × String) × String)) : List String :=
  (l.reverse).foldl
    (fun ls pd => pyInsert ls (pd.1.1.body0_lineno - 1) (docBlock pd.1.1 pd.2)) lines

/-- `insert_docstrings(source, func_nodes, docstrings)` (lines 55–76). -/
def insert_docstrings (source : String) (func_nodes : List (FuncRec × String))
    (docstrings : List String) : String :=
  pyJoin "\n" (insertLoop (pySplitlines source) (func_nodes.zip docstrings))

/-- The loop of lines 95–106 in `generate_docstring_suggestions`: one model
call per missing function (`k` is the call index); a call that raises is
caught, printed, and replaced by the TODO placeholder, and the loop
continues with the remaining functions. -/
def buildDocstrings (oracle : Nat → Except Unit String) :
    Nat → List (FuncRec × String) → List String
  | _, [] => []
  | k, _ :: rest =>
    (match oracle k with
     | .ok doc => doc
     | .error _ => "\"\"\"TODO: Add docstring\"\"\"") :: buildDocstrings oracle (k + 1) rest

/-- `generate_docstring_suggestions` (lines 78–117): `some content` means the
file was rewritten with `content` (lines 108–113); `none` means no functions
were missing docstrings and nothing was written (lines 115–116). -/
def generate_docstring_suggestions (source : String) (tree : List PyStmt)
    (oracle : Nat → Except Unit String) : Option String :=
  let (src, missing_funcs) := extract_functions_missing_docstrings source tree
  let docstrings := buildDocstrings oracle 0 missing_funcs
  if missing_funcs.isEmpty then none
  else some (insert_docstrings src missing_funcs docstrings)

/-! ## `find_all_python_files` (auto_summary.py 7–36)

`Path(directory).rglob("*.py")` is abstracted as the input list `pyPaths`:
the paths matching `*.py` anywhere under the directory, each given with the
directory's own components as its leading parts (as `rglob` yields them). -/

/-- `find_all_python_files(directory, exclude_dirs)`: keep the paths none of
whose parts lies in the exclusion set (line 32); `exclude_dirs or []` turns
`None` into the empty set (line 22); line 35 copies the list unchanged. -/
def find_all_python_files (pyPaths : List (List String))
    (exclude_dirs : Option (List String)) : List (List String) :=
  let ex := exclude_dirs.getD []
  let all_py_files :=
    pyPaths.filter (fun path => !(path.any (fun part => ex.contains part)))
  let temp := all_py_files.map (fun x => x)
  temp

/-! ## Positional-call binding and `summarize_directory` (auto_summary.py 91–168)

Python binds a call's positional arguments against the callee's signature
before running its body; a missing required argument raises `TypeError`
at the call site. -/

/-- One parameter of a Python signature: its name and whether it has a
default value. -/
structure PyParam where
  pname : String
  hasDefault : Bool
  deriving DecidableEq, Repr

/-- Number of parameters without defaults. -/
def requiredCount (ps : List PyParam) : Nat :=
  (ps.filter (fun p => !p.hasDefault)).length

/-- A call with `nargs` positional arguments binds iff it covers every
required parameter and does not overflow the parameter list. -/
def bindPositionalOk (ps : List PyParam) (nargs : Nat) : Bool :=
  requiredCount ps ≤ nargs && nargs ≤ ps.length

/-- The signature of `describe_directory_structure` (auto_summary.py line 38):
`(directory, output_path, exclude_dirs=None, max_depth=3,
show_file_preview=False, preview_lines=3)`. -/
def describe_directory_structure_params : List PyParam :=
  [⟨"directory", false⟩, ⟨"output_path", false⟩, ⟨"exclude_dirs", true⟩,
   ⟨"max_depth", true⟩, ⟨"show_file_preview", true⟩, ⟨"preview_lines", true⟩]

/-- The loop of lines 109–144: two model calls per file (indices `2k` and
`2k + 1`), appending a per-file block to `summary_txt`; a file whose read or
calls raise contributes an error block instead. -/
def summarizeFilesLoop (contents : List String → Option String)
    (oracle : Nat → Except Unit String) : Nat → List (List String) → String
  | _, [] => ""
  | k, f :: rest =>
    let header := "### " ++ pyReplace (pyJoin "/" f) "auto_docu_output/" "" ++ "\n"
    let block :=
      match contents f, oracle (2 * k), oracle (2 * k + 1) with
      | some _, .ok file_summary, .ok file_processes =>
        header ++ "file_summary: " ++ file_summary ++
          "\nfile_processes: " ++ file_processes ++ "\n\n"
      | _, _, _ =>
        header ++ "[Error reading or summarizing file: ...]\n\n"
    block ++ summarizeFilesLoop contents oracle (k + 1) rest

/-- `summarize_directory(directory, exclude_dirs, model)` (lines 91–168),
returning the README files it writes as `(path, content)` pairs.  Its first
statement (line 104) calls `describe_directory_structure(directory)` with a
single positional argument; the signature has two required parameters, so
the call raises `TypeError` before anything is read, summarized or
written. -/
def summarize_directory (directory : List String) (pyPaths : List (List String))
    (exclude_dirs : Option (List String)) (contents : List String → Option String)
    (oracle : Nat → Except Unit String) :
    Except PyErr (List (List String × String)) :=
  if bindPositionalOk describe_directory_structure_params 1 then
    -- unreachable: lines 107–168
    let files := find_all_python_files pyPaths exclude_dirs
    let summary_txt := summarizeFilesLoop contents oracle 0 files
    let job_summary := "# Codebase Summary\n\n" ++ summary_txt
    let directory_summary :=
      match oracle (2 * files.length) with
      | .ok r => pyStrip r
      | .error _ => "###\n[Error reading or summarizing directory: ...]\n\n"
    .ok [(directory ++ ["README_3_job_summaries.txt"], job_summary),
         (directory ++ ["README_2_directory_summary.txt"],
          "# Directory Summary\n\n" ++ directory_summary)]
  else
    .error .typeError

/-! ## `orchestrate_all` (auto_docu.py 8–30), through its first file scan -/

/-- `orchestrate_all(directory, exclude_dirs, commenting_style, model)` up to
and including the first file scan (lines 21–29); the commenting, docstring,
summary and README stages (and hence every model call) run only after this
returns `.ok`.

  * line 21: `commenting_style = commenting_style.replace('commenting','')`;
  * line 23: `auto_docu_path = Path(directory + '/auto_docu_output')`;
  * line 26: `exclude_dirs = exclude_dirs + ['venv','__pycache__']` — with
    the default `exclude_dirs=None` this is `None + list`, a `TypeError`;
  * line 29: `all_files = find_all_python_files(directory, exclude_dirs)`. -/
def orchestrate_all (directory : String) (exclude_dirs : Option (List String))
    (commenting_style : String) (pyPaths : List (List String)) :
    Except PyErr (List (List String)) :=
  let _commenting_style := pyReplace commenting_style "commenting" ""
  let _auto_docu_path := directory ++ "/auto_docu_output"
  match exclude_dirs with
  | none => .error .typeError
  | some l =>
    let exclude_dirs := l ++ ["venv", "__pycache__"]
    .ok (find_all_python_files pyPaths (some exclude_dirs))

/-! ## Per-file pipeline write trace (for the write-once claim)

For one source file, the sequence of artifact paths written by the comment
stage (`auto_comment`, including the fence cleaner's in-place rewrites) and
then by the docstring stage (`generate_docstring_suggestions`, which the
orchestrator points at the mirrored file `auto_comment` produced and which
rewrites that same file in place). -/

/-- The pipeline's write trace for one file: paths written by `auto_comment`,
then the mirrored file's path again if the docstring stage rewrites it.
`tree` is the parse tree of the mirrored file's final content. -/
def pipelineFileWrites (oracle oracleDoc : Nat → Except Unit String)
    (isf : List String → Bool) (file_path auto_docu_root : List String)
    (original_code commenting_style : String) (tree : List PyStmt) :
    List (List String) :=
  let ac := auto_comment oracle isf file_path auto_docu_root original_code commenting_style
  let commentWrites := ac.writes.map (fun w => w.1)
  let dsWrites :=
    match ac.writes.getLast? with
    | none => []
    | some (p, content) =>
      match generate_docstring_suggestions content tree oracleDoc with
      | some _ => [p]
      | none => []
  commentWrites ++ dsWrites

/-! ## Helper lemmas -/

/-- Dropping the stripped-fence last line is a `take` of all but the last. -/
lemma lastFence_take (ls : List String) :
    (match ls.getLast? with
     | some z => if pyStrip z == "```" then ls.dropLast else ls
     | none => ls) =
    ls.take (match ls.getLast? with
     | some z => if pyStrip z == "```" then ls.length - 1 else ls.length
     | none => ls.length) := by
  cases h : ls.getLast? with
  | none => simp [List.take_length]
  | some z =>
    by_cases hz : (pyStrip z == "```") = true <;>
      simp [hz, List.dropLast_eq_take, List.take_length]

/-- C10: `clean_markdown_code_fence` removes the first line exactly when it
strips and lowercases to the fence opener, removes the resulting last line
exactly when it strips to a bare fence, keeps every other line unchanged and
in order, and the rewritten file is the kept lines joined with exactly one
trailing newline appended, so an empty file becomes a single newline. -/
theorem C10_clean_markdown_code_fence_spec (lines : List String) :
    clean_markdown_code_fence lines = cleanSpecLines lines ∧
    clean_output lines = pyJoin "\n" (cleanSpecLines lines) ++ "\n" ∧
    clean_output [] = "\n" := by
  have h1 : clean_markdown_code_fence lines = cleanSpecLines lines := by
    unfold clean_markdown_code_fence cleanSpecLines
    cases lines with
    | nil => simp
    | cons x xs =>
      by_cases hx : (pyLower (pyStrip x) == "```python") = true
      · simpa [hx] using lastFence_take xs
      · simpa [hx] using lastFence_take (x :: xs)
  exact ⟨h1, by rw [clean_output, h1], by decide⟩

/-- C4 (code bug): for the existing file `A/B/C.py` with output root `A/D`,
`get_auto_docu_path` returns `A/D/A/B/C.py` — it duplicates the project
root component `A` instead of the mirrored path `A/D/B/C.py` that its own
docstring and inline comments promise (`sub_dirs => Path("B")`,
`dst_dir => Path("A/D/B")`). -/
theorem C4_get_auto_docu_path_duplicates_root :
    get_auto_docu_path (fun p => p == ["A", "B", "C.py"]) ["A", "B", "C.py"] ["A", "D"]
      = .ok ([["A", "D", "A", "B"]], ["A", "D", "A", "B", "C.py"]) ∧
    (["A", "D", "A", "B", "C.py"] : List String) ≠ ["A", "D", "B", "C.py"] := by
  decide

/-- C9: `get_auto_docu_path` raises `FileNotFoundError` whenever `src` is not
an existing regular file (and then creates no directory and returns no
path — the error result carries neither), and for an existing regular file
it returns a path whose final component is `src`'s file name. -/
theorem C9_get_auto_docu_path_file_check (isf : List String → Bool)
    (src root : List String) :
    (isf src = false → get_auto_docu_path isf src root = .error .fileNotFoundError) ∧
    (isf src = true → src ≠ [] →
      ∃ dirs dst, get_auto_docu_path isf src root = .ok (dirs, dst) ∧
        dst.getLast? = some (src.getLastD "")) := by
  constructor
  · intro h
    unfold get_auto_docu_path
    simp [h]
  · intro h _
    unfold get_auto_docu_path
    simp [h, pathRelativeTo, pathParent]
    refine ⟨_, _, ⟨rfl, rfl⟩, ?_⟩
    rw [← List.append_assoc]
    exact List.getLast?_concat _

/-- Witness for C9 at concrete inputs: a missing file raises, an existing
file `proj/m.py` yields a destination ending in `m.py`. -/
theorem C9_witness :
    (get_auto_docu_path (fun p => p == ["proj", "m.py"]) ["other.py"] ["proj", "out"]
       = .error .fileNotFoundError) ∧
    (∃ dirs dst,
      get_auto_docu_path (fun p => p == ["proj", "m.py"]) ["proj", "m.py"] ["proj", "out"]
        = .ok (dirs, dst) ∧
      dst.getLast? = some ((["proj", "m.py"] : List String).getLastD "")) :=
  ⟨(C9_get_auto_docu_path_file_check (fun p => p == ["proj", "m.py"])
      ["other.py"] ["proj", "out"]).1 (by decide),
   (C9_get_auto_docu_path_file_check (fun p => p == ["proj", "m.py"])
      ["proj", "m.py"] ["proj", "out"]).2 (by decide) (by decide)⟩

/-- C8: with `exclude_dirs = None` (the declared default), `orchestrate_all`
raises `TypeError` at the `exclude_dirs + ['venv','__pycache__']` line,
before the first file scan (and hence before any model call, which all live
in later stages); with an explicit list it proceeds to scan the directory
with the list extended by the two defaults. -/
theorem C8_orchestrate_all_none_type_error (directory commenting_style : String)
    (pyPaths : List (List String)) :
    orchestrate_all directory none commenting_style pyPaths = .error .typeError ∧
    ∀ l, orchestrate_all directory (some l) commenting_style pyPaths
        = .ok (find_all_python_files pyPaths (some (l ++ ["venv", "__pycache__"]))) :=
  ⟨rfl, fun _ => rfl⟩

/-- C2 (code bug): every call of `summarize_directory` raises `TypeError` at
its first statement — `describe_directory_structure(directory)` passes one
positional argument to a signature with two required parameters — so the
per-file summaries, the job-summary report and the directory summary are
never produced, for any directory, any exclusion list, any file contents
and any model behaviour. -/
theorem C2_summarize_directory_type_error (directory : List String)
    (pyPaths : List (List String)) (exclude_dirs : Option (List String))
    (contents : List String → Option String) (oracle : Nat → Except Unit String) :
    summarize_directory directory pyPaths exclude_dirs contents oracle
      = .error .typeError := rfl

/-- C3 (code bug): when the style-comparison reply does not contain
`'different'` (lowercased), `auto_comment` does not write the original
content to the mirrored path: the `else` branch's `print` reads the local
`new_path` before its assignment, so the call raises `UnboundLocalError`
after exactly the two classification model calls, having written nothing. -/
theorem C3_auto_comment_else_unbound_local (oracle : Nat → Except Unit String)
    (isf : List String → Bool) (file_path root : List String)
    (code style r : String) (h1 : oracle 1 = .ok r)
    (h2 : pyInStr "different" (pyLower r) = false) :
    auto_comment oracle isf file_path root code style
      = { writes := [], modelCalls := 2, outcome := .error .unboundLocalError } := by
  unfold auto_comment
  rw [h1]
  simp [h2]

/-- Witness for C3: the reply "similar" (no 'different' substring) makes the
concrete call raise `UnboundLocalError` with no writes after two calls. -/
theorem C3_witness :
    auto_comment (fun n => .ok (if n == 1 then "similar" else "light"))
      (fun p => p == ["proj", "m.py"]) ["proj", "m.py"] ["proj", "out"]
      "x = 1" "moderate"
      = { writes := [], modelCalls := 2, outcome := .error .unboundLocalError } :=
  C3_auto_comment_else_unbound_local _ _ _ _ _ _ "similar" (by decide) (by decide)

/-- Length of the docstring list built by the generation loop. -/
lemma buildDocstrings_length (oracle : Nat → Except Unit String) (k : Nat)
    (l : List (FuncRec × String)) :
    (buildDocstrings oracle k l).length = l.length := by
  induction l generalizing k with
  | nil => rfl
  | cons a rest ih => simp [buildDocstrings, ih]

/-- Element `j` of the built docstring list: the model's reply for call
`k + j`, or the TODO placeholder when that call raised. -/
lemma buildDocstrings_getElem? (oracle : Nat → Except Unit String) (k j : Nat)
    (l : List (FuncRec × String)) (h : j < l.length) :
    (buildDocstrings oracle k l)[j]? =
      some (match oracle (k + j) with
            | .ok d => d
            | .error _ => "\"\"\"TODO: Add docstring\"\"\"") := by
  induction l generalizing k j with
  | nil => simp at h
  | cons a rest ih =>
    cases j with
    | zero => simp [buildDocstrings]
    | succ j' =>
      have h' : j' < rest.length := by simpa using h
      have := ih (k + 1) j' h'
      simpa [buildDocstrings, Nat.add_assoc, Nat.add_comm 1 j'] using this

/-- C5: when any of the per-function model calls raise, the generation loop
substitutes the TODO placeholder for exactly the raising calls, keeps the
generated docstring for the others, processes every missing function, and
the file is still written with the full docstring list inserted. -/
theorem C5_generate_docstring_suggestions_error_handling (source : String)
    (tree : List PyStmt) (oracle : Nat → Except Unit String)
    (hmiss : (extract_functions_missing_docstrings source tree).2 ≠ []) :
    generate_docstring_suggestions source tree oracle =
      some (insert_docstrings source (extract_functions_missing_docstrings source tree).2
        (buildDocstrings oracle 0 (extract_functions_missing_docstrings source tree).2)) ∧
    (buildDocstrings oracle 0 (extract_functions_missing_docstrings source tree).2).length
      = (extract_functions_missing_docstrings source tree).2.length ∧
    (∀ k, k < (extract_functions_missing_docstrings source tree).2.length →
      (buildDocstrings oracle 0 (extract_functions_missing_docstrings source tree).2)[k]? =
        some (match oracle k with
              | .ok d => d
              | .error _ => "\"\"\"TODO: Add docstring\"\"\"")) := by
  refine ⟨?_, buildDocstrings_length _ _ _, ?_⟩
  · unfold generate_docstring_suggestions
    simp [List.isEmpty_iff, hmiss]
    rfl
  · intro k hk
    simpa using buildDocstrings_getElem? oracle 0 k _ hk

/-- Witness for C5: two functions missing docstrings, the first model call
raises and the second succeeds; the file is written with the placeholder for
the first and the generated docstring for the second. -/
theorem C5_witness :
    generate_docstring_suggestions "def f():\n    pass\ndef h():\n    pass"
      [.funcDef ⟨"f", 1, 2, 0, 2⟩ false [.other []],
       .funcDef ⟨"h", 3, 4, 0, 4⟩ false [.other []]]
      (fun n => if n == 0 then .error () else .ok "\"\"\"H doc.\"\"\"") =
      some (insert_docstrings "def f():\n    pass\ndef h():\n    pass"
        (extract_functions_missing_docstrings "def f():\n    pass\ndef h():\n    pass"
          [.funcDef ⟨"f", 1, 2, 0, 2⟩ false [.other []],
           .funcDef ⟨"h", 3, 4, 0, 4⟩ false [.other []]]).2
        (buildDocstrings (fun n => if n == 0 then .error () else .ok "\"\"\"H doc.\"\"\"") 0
          (extract_functions_missing_docstrings "def f():\n    pass\ndef h():\n    pass"
            [.funcDef ⟨"f", 1, 2, 0, 2⟩ false [.other []],
             .funcDef ⟨"h", 3, 4, 0, 4⟩ false [.other []]]).2)) :=
  (C5_generate_docstring_suggestions_error_handling _ _ _ (by decide)).1

/-- C6 counterexample: with exclusion list `["util.py"]`, the file
`proj/sub/util.py` lies outside every excluded directory (no directory
component is excluded), yet `find_all_python_files` omits it, because the
code tests every part of the path — the file name included — against the
exclusion set.  The claim's "every .py file outside all excluded
directories is included" is therefore false at this input. -/
theorem C6_counterexample :
    ¬ ((∀ p, p ∈ find_all_python_files [["proj", "sub", "util.py"]] (some ["util.py"]) ↔
          (p ∈ ([["proj", "sub", "util.py"]] : List (List String)) ∧
           ∀ c ∈ p, c ∉ (["util.py"] : List String))) ∧
       (∀ p ∈ ([["proj", "sub", "util.py"]] : List (List String)),
          (∃ d, d ∈ p.dropLast ∧ d ∈ (["util.py"] : List String)) →
          p ∉ find_all_python_files [["proj", "sub", "util.py"]] (some ["util.py"])) ∧
       (∀ p ∈ ([["proj", "sub", "util.py"]] : List (List String)),
          (∀ d ∈ p.dropLast, d ∉ (["util.py"] : List String)) →
          p ∈ find_all_python_files [["proj", "sub", "util.py"]] (some ["util.py"]))) := by
  intro h
  have := h.2.2 ["proj", "sub", "util.py"] (by decide) (by decide)
  exact absurd this (by decide)

/-- C6 amended: `find_all_python_files` returns exactly the `*.py` paths no
component of which — directory parts or the file name itself — lies in the
exclusion list; every `.py` file inside an excluded directory at any depth
is omitted, and every `.py` file all of whose path components (including
its own name) avoid the exclusion list is included. -/
theorem C6_find_all_python_files_filter (pyPaths : List (List String))
    (ex : List String) :
    (∀ p, p ∈ find_all_python_files pyPaths (some ex) ↔
      (p ∈ pyPaths ∧ ∀ c ∈ p, c ∉ ex)) ∧
    (∀ p ∈ pyPaths, (∃ d, d ∈ p.dropLast ∧ d ∈ ex) →
      p ∉ find_all_python_files pyPaths (some ex)) ∧
    (∀ p ∈ pyPaths, (∀ c ∈ p, c ∉ ex) →
      p ∈ find_all_python_files pyPaths (some ex)) := by
  have hmem : ∀ p, p ∈ find_all_python_files pyPaths (some ex) ↔
      (p ∈ pyPaths ∧ ∀ c ∈ p, c ∉ ex) := by
    intro p
    unfold find_all_python_files
    simp [List.mem_filter, List.any_eq_true]
  refine ⟨hmem, ?_, ?_⟩
  · rintro p _ ⟨d, hd, hdex⟩ hp
    exact absurd hdex (((hmem p).mp hp).2 d (List.dropLast_subset p hd))
  · intro p hp hall
    exact (hmem p).mpr ⟨hp, hall⟩

/-- Witness for C6 amended: `a/b.py` with exclusion list `["venv"]` is kept. -/
theorem C6_witness :
    ["a", "b.py"] ∈ find_all_python_files [["a", "b.py"]] (some ["venv"]) :=
  (C6_find_all_python_files_filter [["a", "b.py"]] ["venv"]).2.2
    ["a", "b.py"] (by decide) (by decide)

/-! ## Placement of inserted docstrings -/

/-- Inserting at a valid index grows the length by one. -/
lemma length_pyInsert {α : Type _} (l : List α) (i : Nat) (x : α) (hi : i ≤ l.length) :
    (pyInsert l i x).length = l.length + 1 := by
  simp [pyInsert]
  omega

/-- Positions strictly below a valid insertion point are untouched. -/
lemma getElem?_pyInsert_lt {α : Type _} (l : List α) (i j : Nat) (x : α)
    (hj : j < i) (hi : i ≤ l.length) :
    (pyInsert l i x)[j]? = l[j]? := by
  simp [pyInsert, List.getElem?_append, List.length_take, Nat.min_eq_left hi, hj,
    List.getElem?_take]

/-- The inserted element sits at the insertion index. -/
lemma getElem?_pyInsert_self {α : Type _} (l : List α) (i : Nat) (x : α)
    (hi : i ≤ l.length) :
    (pyInsert l i x)[i]? = some x := by
  simp only [pyInsert, List.getElem?_append, List.length_take, Nat.min_eq_left hi,
    Nat.lt_irrefl, if_false, Nat.sub_self, List.getElem?_cons_zero]

/-- Positions at or above a valid insertion point shift up by one. -/
lemma getElem?_pyInsert_succ {α : Type _} (l : List α) (i j : Nat) (x : α)
    (hij : i ≤ j) (hi : i ≤ l.length) :
    (pyInsert l i x)[j + 1]? = l[j]? := by
  simp only [pyInsert, List.getElem?_append, List.length_take, Nat.min_eq_left hi]
  have h1 : ¬ (j + 1 < i) := by omega
  have h2 : j + 1 - i = (j - i) + 1 := by omega
  simp only [h1, if_false, h2, List.getElem?_cons_succ, List.getElem?_drop]
  congr 1
  omega

/-- The right fold performing a batch of insertions (`insertLoop` in this
form, after `List.foldl_reverse`). -/
def insertsFoldr {α : Type _} (L : List α) (ps : List (Nat × α)) : List α :=
  ps.foldr (fun q ls => pyInsert ls q.1 q.2) L

/-- Each valid insertion grows the list, so the fold's length is additive. -/
lemma insertsFoldr_length {α : Type _} (L : List α) (ps : List (Nat × α))
    (hb : ∀ q ∈ ps, q.1 ≤ L.length) :
    (insertsFoldr L ps).length = L.length + ps.length := by
  induction ps with
  | nil => simp [insertsFoldr]
  | cons q rest ih =>
    have hrest : ∀ r ∈ rest, r.1 ≤ L.length := fun r hr => hb r (List.mem_cons_of_mem _ hr)
    have hlen := ih hrest
    show (pyInsert (insertsFoldr L rest) q.1 q.2).length = L.length + (rest.length + 1)
    rw [length_pyInsert _ _ _ (by rw [hlen]; exact le_trans (hb q (List.mem_cons_self _ _)) (by omega)),
      hlen]
    omega

/-- Positions strictly below every insertion index of the batch keep their
original content. -/
lemma insertsFoldr_low {α : Type _} (L : List α) (ps : List (Nat × α)) (m : Nat)
    (hm : ∀ q ∈ ps, m < q.1) (hb : ∀ q ∈ ps, q.1 ≤ L.length) :
    (insertsFoldr L ps)[m]? = L[m]? := by
  induction ps with
  | nil => rfl
  | cons q rest ih =>
    have hrest : ∀ r ∈ rest, r.1 ≤ L.length := fun r hr => hb r (List.mem_cons_of_mem _ hr)
    have hmrest : ∀ r ∈ rest, m < r.1 := fun r hr => hm r (List.mem_cons_of_mem _ hr)
    have hql : q.1 ≤ (insertsFoldr L rest).length := by
      rw [insertsFoldr_length L rest hrest]
      exact le_trans (hb q (List.mem_cons_self _ _)) (by omega)
    show (pyInsert (insertsFoldr L rest) q.1 q.2)[m]? = L[m]?
    rw [getElem?_pyInsert_lt _ _ _ _ (hm q (List.mem_cons_self _ _)) hql]
    exact ih hmrest hrest

/-- When the insertion indices are strictly increasing along the batch and
in range, folding from the right (i.e. processing the batch back to front,
highest index first) puts the `k`-th inserted element at position
`index + k`, immediately followed by the original element of position
`index` — no insertion invalidates another's index. -/
lemma insertsFoldr_placement {α : Type _} (L : List α) (ps : List (Nat × α))
    (hs : (ps.map Prod.fst).Pairwise (· < ·))
    (hb : ∀ q ∈ ps, q.1 < L.length) :
    ∀ k (hk : k < ps.length),
      (insertsFoldr L ps)[ps[k].1 + k]? = some ps[k].2 ∧
      (insertsFoldr L ps)[ps[k].1 + k + 1]? = L[ps[k].1]? := by
  induction ps with
  | nil => intro k hk; simp at hk
  | cons q rest ih =>
    intro k hk
    rw [List.map_cons] at hs
    have hpc := List.pairwise_cons.mp hs
    have hql : ∀ r ∈ rest, q.1 < r.1 := fun r hr => hpc.1 r.1 (List.mem_map_of_mem _ hr)
    have hs' : (rest.map Prod.fst).Pairwise (· < ·) := hpc.2
    have hbrest : ∀ r ∈ rest, r.1 < L.length := fun r hr => hb r (List.mem_cons_of_mem _ hr)
    have hRlen : (insertsFoldr L rest).length = L.length + rest.length :=
      insertsFoldr_length L rest (fun r hr => le_of_lt (hbrest r hr))
    have hq : q.1 < L.length := hb q (List.mem_cons_self _ _)
    have hqR : q.1 ≤ (insertsFoldr L rest).length := by omega
    cases k with
    | zero =>
      constructor
      · show (pyInsert (insertsFoldr L rest) q.1 q.2)[q.1 + 0]? = some q.2
        rw [Nat.add_zero]
        exact getElem?_pyInsert_self _ _ _ hqR
      · show (pyInsert (insertsFoldr L rest) q.1 q.2)[q.1 + 0 + 1]? = L[q.1]?
        rw [Nat.add_zero, getElem?_pyInsert_succ _ _ _ _ (le_refl _) hqR]
        exact insertsFoldr_low L rest q.1 hql (fun r hr => le_of_lt (hbrest r hr))
    | succ k' =>
      have hk' : k' < rest.length := by simpa using hk
      have IH := ih hs' hbrest k' hk'
      have hcons : (q :: rest)[k' + 1] = rest[k'] := by
        simp
      have hle : q.1 ≤ rest[k'].1 + k' :=
        le_trans (le_of_lt (hql _ (List.getElem_mem hk'))) (Nat.le_add_right _ _)
      constructor
      · show (pyInsert (insertsFoldr L rest) q.1 q.2)[(q :: rest)[k' + 1].1 + (k' + 1)]? =
          some (q :: rest)[k' + 1].2
        rw [hcons]
        have harr : rest[k'].1 + (k' + 1) = (rest[k'].1 + k') + 1 := by omega
        rw [harr, getElem?_pyInsert_succ _ _ _ _ hle hqR]
        exact IH.1
      · show (pyInsert (insertsFoldr L rest) q.1 q.2)[(q :: rest)[k' + 1].1 + (k' + 1) + 1]? =
          L[(q :: rest)[k' + 1].1]?
        rw [hcons]
        have harr : rest[k'].1 + (k' + 1) + 1 = (rest[k'].1 + k' + 1) + 1 := by omega
        rw [harr, getElem?_pyInsert_succ _ _ _ _ (le_trans hle (Nat.le_succ _)) hqR]
        exact IH.2

/-- `insertLoop` (the reversed `foldl` the code performs) is the right fold
over the index/doc-block pairs. -/
lemma insertLoop_eq_insertsFoldr (lines : List String)
    (l : List ((FuncRec × String) × String)) :
    insertLoop lines l =
      insertsFoldr lines
        (l.map (fun pd => (pd.1.1.body0_lineno - 1, docBlock pd.1.1 pd.2))) := by
  unfold insertLoop insertsFoldr
  rw [List.foldl_reverse, List.foldr_map]

/-- C1 amended: provided the extracted functions' recorded body-start line
numbers are strictly increasing along the extraction order (in particular
whenever no missing-docstring function is nested inside another function or
class, so that `ast.walk`'s breadth-first order coincides with source
order) and in range, `insert_docstrings` splices the doc blocks in strictly
decreasing order of body-start line number (highest first), no insertion
invalidates the line offset of a later one, and in the resulting line list
every doc block sits immediately before its own function's original first
body line. -/
theorem C1_insert_docstrings_sorted (source : String)
    (func_nodes : List (FuncRec × String)) (docs : List String)
    (hmono : ((func_nodes.zip docs).map (fun pd => pd.1.1.body0_lineno)).Pairwise (· < ·))
    (hb : ∀ pd ∈ func_nodes.zip docs,
      1 ≤ pd.1.1.body0_lineno ∧ pd.1.1.body0_lineno ≤ (pySplitlines source).length) :
    (((func_nodes.zip docs).reverse.map (fun pd => pd.1.1.body0_lineno)).Pairwise (· > ·)) ∧
    (∀ k (hk : k < (func_nodes.zip docs).length),
      (insertLoop (pySplitlines source) (func_nodes.zip docs))[
          (func_nodes.zip docs)[k].1.1.body0_lineno - 1 + k]? =
        some (docBlock (func_nodes.zip docs)[k].1.1 (func_nodes.zip docs)[k].2) ∧
      (insertLoop (pySplitlines source) (func_nodes.zip docs))[
          (func_nodes.zip docs)[k].1.1.body0_lineno - 1 + k + 1]? =
        (pySplitlines source)[(func_nodes.zip docs)[k].1.1.body0_lineno - 1]?) ∧
    insert_docstrings source func_nodes docs =
      pyJoin "\n" (insertLoop (pySplitlines source) (func_nodes.zip docs)) := by
  refine ⟨?_, ?_, rfl⟩
  · rw [List.map_reverse]
    exact List.pairwise_reverse.mpr hmono
  · intro k hk
    have hzip := List.pairwise_map.mp hmono
    have hzip' : (func_nodes.zip docs).Pairwise
        (fun a b => a.1.1.body0_lineno - 1 < b.1.1.body0_lineno - 1) := by
      refine List.Pairwise.imp_of_mem ?_ hzip
      intro a b ha _ hab
      have h1 := (hb a ha).1
      omega
    have hs : (((func_nodes.zip docs).map
        (fun pd => (pd.1.1.body0_lineno - 1, docBlock pd.1.1 pd.2))).map Prod.fst).Pairwise
        (· < ·) := by
      rw [List.map_map]
      exact List.pairwise_map.mpr hzip'
    have hbound : ∀ q ∈ (func_nodes.zip docs).map
        (fun pd => (pd.1.1.body0_lineno - 1, docBlock pd.1.1 pd.2)),
        q.1 < (pySplitlines source).length := by
      intro q hq
      obtain ⟨pd, hpd, rfl⟩ := List.mem_map.mp hq
      have := hb pd hpd
      omega
    have hk2 : k < ((func_nodes.zip docs).map
        (fun pd => (pd.1.1.body0_lineno - 1, docBlock pd.1.1 pd.2))).length := by
      simpa using hk
    have HP := insertsFoldr_placement (pySplitlines source) _ hs hbound k hk2
    rw [insertLoop_eq_insertsFoldr]
    have hgm : ((func_nodes.zip docs).map
        (fun pd => (pd.1.1.body0_lineno - 1, docBlock pd.1.1 pd.2)))[k] =
        ((func_nodes.zip docs)[k].1.1.body0_lineno - 1,
          docBlock (func_nodes.zip docs)[k].1.1 (func_nodes.zip docs)[k].2) :=
      List.getElem_map _
    rw [hgm] at HP
    exact HP

/-- The parse tree of `exSourceNested`: `f` (lines 1–4) containing a nested
`g` (lines 2–3), followed by a top-level `h` (lines 5–6); none has a
docstring. -/
def exTreeNested : List PyStmt :=
  [.funcDef ⟨"f", 1, 4, 0, 2⟩ false
     [.funcDef ⟨"g", 2, 3, 4, 3⟩ false [.other []], .other []],
   .funcDef ⟨"h", 5, 6, 0, 6⟩ false [.other []]]

/-- A module with a nested function: `ast.walk` (breadth-first) lists
`f, h, g`, whose body-start lines `2, 6, 3` are not increasing. -/
def exSourceNested : String :=
  "def f():\n    def g():\n        pass\n    return g\ndef h():\n    pass"

/-- One generated docstring per extracted function, in extraction order
`f, h, g`. -/
def exDocsNested : List String :=
  ["\"\"\"F.\"\"\"", "\"\"\"H.\"\"\"", "\"\"\"G.\"\"\""]

/-- C1 counterexample: on a module with a nested function missing its
docstring, `extract_functions_missing_docstrings` (breadth-first `ast.walk`
order `f, h, g`) makes `insert_docstrings` splice in the order of body-start
lines `3, 6, 2` — not strictly decreasing — and the claim fails: the `g`
insertion shifts `h` down, so `h`'s doc block does not end up immediately
before `h`'s original first body line (it lands above `def h():` instead). -/
theorem C1_counterexample :
    ¬ ((((extract_functions_missing_docstrings exSourceNested exTreeNested).2.zip
          exDocsNested).reverse.map (fun pd => pd.1.1.body0_lineno)).Pairwise (· > ·) ∧
       (∀ k (hk : k < ((extract_functions_missing_docstrings exSourceNested
            exTreeNested).2.zip exDocsNested).length),
         ∃ j,
           (insertLoop (pySplitlines exSourceNested)
             ((extract_functions_missing_docstrings exSourceNested exTreeNested).2.zip
               exDocsNested))[j]? =
             some (docBlock
               ((extract_functions_missing_docstrings exSourceNested exTreeNested).2.zip
                 exDocsNested)[k].1.1
               ((extract_functions_missing_docstrings exSourceNested exTreeNested).2.zip
                 exDocsNested)[k].2) ∧
           (insertLoop (pySplitlines exSourceNested)
             ((extract_functions_missing_docstrings exSourceNested exTreeNested).2.zip
               exDocsNested))[j + 1]? =
             (pySplitlines exSourceNested)[
               ((extract_functions_missing_docstrings exSourceNested exTreeNested).2.zip
                 exDocsNested)[k].1.1.body0_lineno - 1]?)) := by
  intro h
  exact absurd h.1 (by decide)

/-- Witness for C1 amended: two flat top-level functions with increasing
body-start lines 2 and 4; the amended theorem applies and places each doc
block immediately before its function's first body line. -/
theorem C1_witness :
    ((([(⟨"f", 1, 2, 0, 2⟩, "def f():\n    pass"),
        (⟨"h", 3, 4, 0, 4⟩, "def h():\n    pass")] : List (FuncRec × String)).zip
         ["\"\"\"F.\"\"\"", "\"\"\"H.\"\"\""]).reverse.map
           (fun pd => pd.1.1.body0_lineno)).Pairwise (· > ·) ∧
    (∀ k (hk : k < (([(⟨"f", 1, 2, 0, 2⟩, "def f():\n    pass"),
        (⟨"h", 3, 4, 0, 4⟩, "def h():\n    pass")] : List (FuncRec × String)).zip
         ["\"\"\"F.\"\"\"", "\"\"\"H.\"\"\""]).length),
      (insertLoop (pySplitlines "def f():\n    pass\ndef h():\n    pass")
          (([(⟨"f", 1, 2, 0, 2⟩, "def f():\n    pass"),
             (⟨"h", 3, 4, 0, 4⟩, "def h():\n    pass")] : List (FuncRec × String)).zip
            ["\"\"\"F.\"\"\"", "\"\"\"H.\"\"\""]))[
          (([(⟨"f", 1, 2, 0, 2⟩, "def f():\n    pass"),
             (⟨"h", 3, 4, 0, 4⟩, "def h():\n    pass")] : List (FuncRec × String)).zip
            ["\"\"\"F.\"\"\"", "\"\"\"H.\"\"\""])[k].1.1.body0_lineno - 1 + k]? =
        some (docBlock
          (([(⟨"f", 1, 2, 0, 2⟩, "def f():\n    pass"),
             (⟨"h", 3, 4, 0, 4⟩, "def h():\n    pass")] : List (FuncRec × String)).zip
            ["\"\"\"F.\"\"\"", "\"\"\"H.\"\"\""])[k].1.1
          (([(⟨"f", 1, 2, 0, 2⟩, "def f():\n    pass"),
             (⟨"h", 3, 4, 0, 4⟩, "def h():\n    pass")] : List (FuncRec × String)).zip
            ["\"\"\"F.\"\"\"", "\"\"\"H.\"\"\""])[k].2) ∧
      (insertLoop (pySplitlines "def f():\n    pass\ndef h():\n    pass")
          (([(⟨"f", 1, 2, 0, 2⟩, "def f():\n    pass"),
             (⟨"h", 3, 4, 0, 4⟩, "def h():\n    pass")] : List (FuncRec × String)).zip
            ["\"\"\"F.\"\"\"", "\"\"\"H.\"\"\""]))[
          (([(⟨"f", 1, 2, 0, 2⟩, "def f():\n    pass"),
             (⟨"h", 3, 4, 0, 4⟩, "def h():\n    pass")] : List (FuncRec × String)).zip
            ["\"\"\"F.\"\"\"", "\"\"\"H.\"\"\""])[k].1.1.body0_lineno - 1 + k + 1]? =
        (pySplitlines "def f():\n    pass\ndef h():\n    pass")[
          (([(⟨"f", 1, 2, 0, 2⟩, "def f():\n    pass"),
             (⟨"h", 3, 4, 0, 4⟩, "def h():\n    pass")] : List (FuncRec × String)).zip
            ["\"\"\"F.\"\"\"", "\"\"\"H.\"\"\""])[k].1.1.body0_lineno - 1]?) ∧
    insert_docstrings "def f():\n    pass\ndef h():\n    pass"
        [(⟨"f", 1, 2, 0, 2⟩, "def f():\n    pass"),
         (⟨"h", 3, 4, 0, 4⟩, "def h():\n    pass")]
        ["\"\"\"F.\"\"\"", "\"\"\"H.\"\"\""] =
      pyJoin "\n" (insertLoop (pySplitlines "def f():\n    pass\ndef h():\n    pass")
        (([(⟨"f", 1, 2, 0, 2⟩, "def f():\n    pass"),
           (⟨"h", 3, 4, 0, 4⟩, "def h():\n    pass")] : List (FuncRec × String)).zip
          ["\"\"\"F.\"\"\"", "\"\"\"H.\"\"\""])) :=
  C1_insert_docstrings_sorted "def f():\n    pass\ndef h():\n    pass"
    [(⟨"f", 1, 2, 0, 2⟩, "def f():\n    pass"),
     (⟨"h", 3, 4, 0, 4⟩, "def h():\n    pass")]
    ["\"\"\"F.\"\"\"", "\"\"\"H.\"\"\""] (by decide) (by decide)

/-- C7 counterexample: a run in which the model judges the style different.
The comment stage writes the mirrored file, the fence cleaner rewrites it,
the recomment pass writes it again and the cleaner rewrites it again, and
the docstring stage rewrites it a fifth time — the write trace repeats the
same path, so no-path-written-twice fails. -/
theorem C7_counterexample :
    ¬ (pipelineFileWrites
        (fun n => .ok (if n == 1 then "different" else "def g():\n    return 1"))
        (fun _ => .ok "\"\"\"G doc.\"\"\"")
        (fun p => p == ["proj", "m.py"]) ["proj", "m.py"] ["proj", "auto_docu_output"]
        "def g():  # returns one\n    return 1" "moderate"
        [.funcDef ⟨"g", 1, 2, 0, 2⟩ false [.other []]]).Pairwise (· ≠ ·) := by
  decide

/-- C7 amended: artifacts are not written exactly once.  In a run where the
style-comparison reply contains 'different', the strip and recomment calls
succeed, and the mirrored file still has functions missing docstrings, the
write trace is the mirrored file's path five times over: `auto_comment`
writes it twice per model output (the write plus `clean_markdown_code_fence`'s
in-place rewrite, for both the stripped and the recommented version) and
`generate_docstring_suggestions` rewrites it once more. -/
theorem C7_pipeline_rewrites_mirrored_file (oracle oracleDoc : Nat → Except Unit String)
    (isf : List String → Bool) (fp root : List String) (code style r u c : String)
    (tree : List PyStmt) (dirs : List (List String)) (p : List String)
    (h1 : oracle 1 = .ok r) (hdiff : pyInStr "different" (pyLower r) = true)
    (h2 : oracle 2 = .ok u) (h3 : oracle 3 = .ok c)
    (hget : get_auto_docu_path isf fp root = .ok (dirs, p))
    (hmiss : (extract_functions_missing_docstrings (clean_output (pySplitlines c))
        tree).2 ≠ []) :
    pipelineFileWrites oracle oracleDoc isf fp root code style tree =
      List.replicate 5 p := by
  unfold pipelineFileWrites auto_comment
  rw [h1, h2, h3, hget]
  simp only [hdiff, if_true]
  unfold generate_docstring_suggestions
  simp [List.isEmpty_iff, hmiss, List.replicate]

/-- Witness for C7 amended at concrete inputs: the mirrored path
`pkg/auto_docu_output/pkg/a.py` is written five times. -/
theorem C7_witness :
    pipelineFileWrites
      (fun n => .ok (if n == 1 then "very different" else "def k():\n    return 2"))
      (fun _ => .ok "\"\"\"K doc.\"\"\"")
      (fun p => p == ["pkg", "a.py"]) ["pkg", "a.py"] ["pkg", "auto_docu_output"]
      "def k():  # two\n    return 2" "verbose"
      [.funcDef ⟨"k", 1, 2, 0, 2⟩ false [.other []]] =
      List.replicate 5 ["pkg", "auto_docu_output", "pkg", "a.py"] :=
  C7_pipeline_rewrites_mirrored_file _ _ _ ["pkg", "a.py"] ["pkg", "auto_docu_output"]
    _ _ "very different" "def k():\n    return 2" "def k():\n    return 2"
    [.funcDef ⟨"k", 1, 2, 0, 2⟩ false [.other []]]
    [["pkg", "auto_docu_output", "pkg"]] ["pkg", "auto_docu_output", "pkg", "a.py"]
    (by decide) (by decide) (by decide) (by decide) (by decide) (by decide)
